import Mathlib

/-!
Shallow embedding of `src/ant/core/message.py` (the ANT wire-message codec):
the generic `Message` frame codec (encode / decode / checksum), the channel
addressing layer, the message variant catalog and the type registry, together
with proofs settling the specified properties of the framing, validation and
dispatch contract.

Conventions of the embedding:
* a Python `bytearray` is a `List Nat` whose elements are bytes (`< 256`);
  byte-ness is carried as a hypothesis where a theorem needs it;
* Python integers handed to setters are `Int` (they may be negative or huge);
  validated values are stored as `Nat`;
* a raising method becomes a function into `Except PyError _`; a method that
  mutates `self` and raises returns the post-state next to the outcome, so
  that partial mutation before a raise is observable.
-/

namespace PythonAnt

/-- The distinct error outcomes of the module: `messageError` models the
repository `MessageError` with its optional `internal` classification string;
`valueError`, `indexError` and `structError` model the Python built-in errors a
`bytearray` store or `struct.pack` raises; `keyError` models a failed
`TYPE_TABLE` dictionary lookup. -/
inductive PyError where
  | messageError (msg : String) (internal : Option String)
  | valueError (msg : String)
  | indexError (msg : String)
  | structError (msg : String)
  | keyError (key : Nat)
deriving DecidableEq, Repr

deriving instance DecidableEq for Except

/-- Discriminates the `MessageError` shape (the only error kind the module
raises itself, whose text names the violated field) from the Python built-in
errors of the byte store. -/
def PyError.isMessageError : PyError → Bool
  | .messageError _ _ => true
  | _ => false

/-- `Message.INCOMPLETE` class constant. -/
def INCOMPLETE : String := "incomplete"

/-- `Message.CORRUPTED` class constant. -/
def CORRUPTED : String := "corrupted"

/-- `Message.MALFORMED` class constant. -/
def MALFORMED : String := "malformed"

/-- Modelled from the spec: `ant/core/constants.py` is imported by the source
but is not among the given files. The spec fixes the synchronization byte in
concrete scenario A: "sync = 0xA4". -/
def MESSAGE_TX_SYNC : Nat := 0xA4

/-- Modelled from the spec: the numeric type codes of `ant/core/constants.py`
are not among the given files. The spec pins channel-open to `0x4B`
(concrete scenario A); the remaining codes are the ANT protocol message IDs
this repository implements, one distinct code per registry entry as the spec
requires. -/
def MESSAGE_CHANNEL_UNASSIGN : Nat := 0x41

/-- Modelled from the spec: see `MESSAGE_CHANNEL_UNASSIGN`. -/
def MESSAGE_CHANNEL_ASSIGN : Nat := 0x42

/-- Modelled from the spec: see `MESSAGE_CHANNEL_UNASSIGN`. -/
def MESSAGE_CHANNEL_ID : Nat := 0x51

/-- Modelled from the spec: see `MESSAGE_CHANNEL_UNASSIGN`. -/
def MESSAGE_CHANNEL_PERIOD : Nat := 0x43

/-- Modelled from the spec: see `MESSAGE_CHANNEL_UNASSIGN`. -/
def MESSAGE_CHANNEL_SEARCH_TIMEOUT : Nat := 0x44

/-- Modelled from the spec: see `MESSAGE_CHANNEL_UNASSIGN`. -/
def MESSAGE_CHANNEL_FREQUENCY : Nat := 0x45

/-- Modelled from the spec: see `MESSAGE_CHANNEL_UNASSIGN`. -/
def MESSAGE_CHANNEL_TX_POWER : Nat := 0x60

/-- Modelled from the spec: see `MESSAGE_CHANNEL_UNASSIGN`. -/
def MESSAGE_NETWORK_KEY : Nat := 0x46

/-- Modelled from the spec: see `MESSAGE_CHANNEL_UNASSIGN`. -/
def MESSAGE_TX_POWER : Nat := 0x47

/-- Modelled from the spec: see `MESSAGE_CHANNEL_UNASSIGN`. -/
def MESSAGE_SYSTEM_RESET : Nat := 0x4A

/-- Modelled from the spec: concrete scenario A pins the channel-open type
code to `0x4B`. -/
def MESSAGE_CHANNEL_OPEN : Nat := 0x4B

/-- Modelled from the spec: see `MESSAGE_CHANNEL_UNASSIGN`. -/
def MESSAGE_CHANNEL_CLOSE : Nat := 0x4C

/-- Modelled from the spec: see `MESSAGE_CHANNEL_UNASSIGN`. -/
def MESSAGE_CHANNEL_REQUEST : Nat := 0x4D

/-- Modelled from the spec: see `MESSAGE_CHANNEL_UNASSIGN`. -/
def MESSAGE_CHANNEL_BROADCAST_DATA : Nat := 0x4E

/-- Modelled from the spec: see `MESSAGE_CHANNEL_UNASSIGN`. -/
def MESSAGE_CHANNEL_ACKNOWLEDGED_DATA : Nat := 0x4F

/-- Modelled from the spec: see `MESSAGE_CHANNEL_UNASSIGN`. -/
def MESSAGE_CHANNEL_BURST_DATA : Nat := 0x50

/-- Modelled from the spec: see `MESSAGE_CHANNEL_UNASSIGN`. -/
def MESSAGE_CHANNEL_EVENT : Nat := 0x40

/-- Modelled from the spec: see `MESSAGE_CHANNEL_UNASSIGN`. -/
def MESSAGE_CHANNEL_STATUS : Nat := 0x52

/-- Modelled from the spec: see `MESSAGE_CHANNEL_UNASSIGN`. -/
def MESSAGE_VERSION : Nat := 0x3E

/-- Modelled from the spec: see `MESSAGE_CHANNEL_UNASSIGN`. -/
def MESSAGE_CAPABILITIES : Nat := 0x54

/-- Modelled from the spec: see `MESSAGE_CHANNEL_UNASSIGN`. -/
def MESSAGE_SERIAL_NUMBER : Nat := 0x61

/-- Modelled from the spec: see `MESSAGE_CHANNEL_UNASSIGN`. -/
def MESSAGE_STARTUP : Nat := 0x6F

/-- The state of a `Message` instance: the validated type code `type_` and the
`payload` bytearray. -/
structure Message where
  type_ : Nat
  payload : List Nat
deriving DecidableEq, Repr

/-- `bytearray.__setitem__` for a nonnegative index, as used by the field
setters: an out-of-bounds index raises `IndexError`, a value outside `0..255`
raises `ValueError`, otherwise the byte is stored in place. -/
def bytearraySet (p : List Nat) (i : Nat) (v : Int) : Except PyError (List Nat) :=
  if p.length ≤ i then
    .error (.indexError "bytearray index out of range")
  else if v < 0 ∨ 255 < v then
    .error (.valueError "byte must be in range(0, 256)")
  else
    .ok (p.set i v.toNat)

/-- `struct.pack` with format `<H`: two little-endian bytes, raising
`struct.error` outside `0..65535`. -/
def structPackLEH (n : Int) : Except PyError (List Nat) :=
  if n < 0 ∨ 65535 < n then
    .error (.structError "H format requires 0 <= number <= 65535")
  else
    .ok [n.toNat % 256, n.toNat / 256]

namespace Message

/-- `Message.setPayload`. -/
def setPayload (m : Message) (payload : List Nat) : Except PyError Message :=
  if payload.length > 9 then
    .error (.messageError "Could not set payload (payload too long)." (some MALFORMED))
  else
    .ok { m with payload := payload }

/-- `Message.setType`. -/
def setType (m : Message) (t : Int) : Except PyError Message :=
  if t > 0xFF ∨ t < 0 then
    .error (.messageError "Could not set type (type out of range)." (some CORRUPTED))
  else
    .ok { m with type_ := t.toNat }

/-- `Message.__init__(type_, payload)`: `setType` then `setPayload` on a fresh
instance (`payload=None` defaults to the empty bytearray). -/
def init (t : Int) (p : List Nat) : Except PyError Message := do
  let m ← setType { type_ := 0, payload := [] } t
  m.setPayload p

/-- `Message.getChecksum`: running XOR of the sync constant, the payload
length, the type code and every payload byte. -/
def getChecksum (m : Message) : Nat :=
  m.payload.foldl (· ^^^ ·) ((MESSAGE_TX_SYNC ^^^ m.payload.length) ^^^ m.type_)

/-- `Message.getSize`. -/
def getSize (m : Message) : Nat := m.payload.length + 4

/-- `Message.encode`: `[SYNC, len(payload), type] ++ payload ++ [checksum]`. -/
def encode (m : Message) : List Nat :=
  MESSAGE_TX_SYNC :: m.payload.length :: m.type_ :: (m.payload ++ [m.getChecksum])

/-- The `MessageError` raised by both incompleteness checks of `decode`. -/
def incompleteError : PyError :=
  .messageError "Could not decode (message is incomplete)." (some INCOMPLETE)

/-- The `MessageError` raised by the sync check of `decode`. -/
def syncError : PyError :=
  .messageError "Could not decode (expected TX sync)." (some CORRUPTED)

/-- The `MessageError` raised by the length check of `decode`. -/
def lengthError : PyError :=
  .messageError "Could not decode (payload too long)." (some MALFORMED)

/-- The `MessageError` raised by the checksum check of `decode`. -/
def checksumError : PyError :=
  .messageError "Could not decode (bad checksum)." (some CORRUPTED)

/-- `Message.decode(raw)`: the validation sequence of the source, returning
the post-state of `self` (the source mutates `self.type_` and `self.payload`
before the checksum comparison) next to the outcome. The three header bytes
`sync, length, type_ = raw[:3]` are read as `raw.getD 0 0`, `raw.getD 1 0`
and `raw.getD 2 0` (the first check guarantees they exist). -/
def decode (m : Message) (raw : List Nat) : Message × Except PyError Nat :=
  if raw.length < 5 then
    (m, .error incompleteError)
  else if raw.getD 0 0 ≠ MESSAGE_TX_SYNC then
    (m, .error syncError)
  else if raw.getD 1 0 > 9 then
    (m, .error lengthError)
  else if raw.length < raw.getD 1 0 + 4 then
    (m, .error incompleteError)
  else
    match m.setType (raw.getD 2 0 : Int) with
    | .error e => (m, .error e)
    | .ok m1 =>
      match m1.setPayload ((raw.drop 3).take (raw.getD 1 0)) with
      | .error e => (m1, .error e)
      | .ok m2 =>
        if m2.getChecksum ≠ raw.getD (raw.getD 1 0 + 3) 0 then
          (m2, .error checksumError)
        else
          (m2, .ok m2.getSize)

end Message

/-- `ChannelMessage.setChannelNumber`: explicit range check, then a store into
payload byte 0. -/
def ChannelMessage.setChannelNumber (m : Message) (number : Int) : Except PyError Message :=
  if number > 0xFF ∨ number < 0 then
    .error (.messageError "Could not set channel number (out of range)." none)
  else do
    let p ← bytearraySet m.payload 0 number
    .ok { m with payload := p }

/-- `ChannelMessage.__init__(type_, payload, number)`: the payload is
`bytearray(1) + payload` (a zero channel byte before the extra payload),
then the channel number is set. -/
def ChannelMessage.init (t : Int) (payload : List Nat) (number : Int) :
    Except PyError Message := do
  let m ← Message.init t (0 :: payload)
  ChannelMessage.setChannelNumber m number

/-- `ChannelUnassignMessage()` with its default channel number. -/
def ChannelUnassignMessage.mkDefault : Except PyError Message :=
  ChannelMessage.init (MESSAGE_CHANNEL_UNASSIGN : Nat) [] 0

/-- `ChannelAssignMessage.setChannelType`: an unchecked store into payload
byte 1 (only the bytearray itself validates the value). -/
def ChannelAssignMessage.setChannelType (m : Message) (t : Int) : Except PyError Message := do
  let p ← bytearraySet m.payload 1 t
  .ok { m with payload := p }

/-- `ChannelAssignMessage.setNetworkNumber`: an unchecked store into payload
byte 2. -/
def ChannelAssignMessage.setNetworkNumber (m : Message) (n : Int) : Except PyError Message := do
  let p ← bytearraySet m.payload 2 n
  .ok { m with payload := p }

/-- `ChannelAssignMessage.__init__(number, type_, network)`. -/
def ChannelAssignMessage.init (number t network : Int) : Except PyError Message := do
  let m ← ChannelMessage.init (MESSAGE_CHANNEL_ASSIGN : Nat) [0, 0] number
  let m ← ChannelAssignMessage.setChannelType m t
  ChannelAssignMessage.setNetworkNumber m network

/-- `ChannelAssignMessage()` with its defaults. -/
def ChannelAssignMessage.mkDefault : Except PyError Message :=
  ChannelAssignMessage.init 0 0 0

/-- `ChannelIDMessage.setDeviceNumber`: `payload[1:3] = struct.pack(LE16, n)`. -/
def ChannelIDMessage.setDeviceNumber (m : Message) (n : Int) : Except PyError Message := do
  let bs ← structPackLEH n
  .ok { m with payload := m.payload.take 1 ++ bs ++ m.payload.drop 3 }

/-- `ChannelIDMessage.setDeviceType`: an unchecked store into payload byte 3. -/
def ChannelIDMessage.setDeviceType (m : Message) (v : Int) : Except PyError Message := do
  let p ← bytearraySet m.payload 3 v
  .ok { m with payload := p }

/-- `ChannelIDMessage.setTransmissionType`: an unchecked store into payload
byte 4. -/
def ChannelIDMessage.setTransmissionType (m : Message) (v : Int) : Except PyError Message := do
  let p ← bytearraySet m.payload 4 v
  .ok { m with payload := p }

/-- `ChannelIDMessage.__init__(number, device_number, device_type, trans_type)`. -/
def ChannelIDMessage.init (number device_number device_type trans_type : Int) :
    Except PyError Message := do
  let m ← ChannelMessage.init (MESSAGE_CHANNEL_ID : Nat) [0, 0, 0, 0] number
  let m ← ChannelIDMessage.setDeviceNumber m device_number
  let m ← ChannelIDMessage.setDeviceType m device_type
  ChannelIDMessage.setTransmissionType m trans_type

/-- `ChannelIDMessage()` with its defaults. -/
def ChannelIDMessage.mkDefault : Except PyError Message :=
  ChannelIDMessage.init 0 0 0 0

/-- `ChannelPeriodMessage.setChannelPeriod`: `payload[1:3] = struct.pack(LE16, n)`. -/
def ChannelPeriodMessage.setChannelPeriod (m : Message) (n : Int) : Except PyError Message := do
  let bs ← structPackLEH n
  .ok { m with payload := m.payload.take 1 ++ bs ++ m.payload.drop 3 }

/-- `ChannelPeriodMessage.__init__(number, period)`. -/
def ChannelPeriodMessage.init (number period : Int) : Except PyError Message := do
  let m ← ChannelMessage.init (MESSAGE_CHANNEL_PERIOD : Nat) [0, 0] number
  ChannelPeriodMessage.setChannelPeriod m period

/-- `ChannelPeriodMessage()` with its defaults (period 8192). -/
def ChannelPeriodMessage.mkDefault : Except PyError Message :=
  ChannelPeriodMessage.init 0 8192

/-- `ChannelSearchTimeoutMessage.setTimeout`: an unchecked store into payload
byte 1. -/
def ChannelSearchTimeoutMessage.setTimeout (m : Message) (v : Int) : Except PyError Message := do
  let p ← bytearraySet m.payload 1 v
  .ok { m with payload := p }

/-- `ChannelSearchTimeoutMessage.__init__(number, timeout)`. -/
def ChannelSearchTimeoutMessage.init (number timeout : Int) : Except PyError Message := do
  let m ← ChannelMessage.init (MESSAGE_CHANNEL_SEARCH_TIMEOUT : Nat) [0] number
  ChannelSearchTimeoutMessage.setTimeout m timeout

/-- `ChannelSearchTimeoutMessage()` with its defaults (timeout 0xFF). -/
def ChannelSearchTimeoutMessage.mkDefault : Except PyError Message :=
  ChannelSearchTimeoutMessage.init 0 0xFF

/-- `ChannelFrequencyMessage.setFrequency`: an unchecked store into payload
byte 1. -/
def ChannelFrequencyMessage.setFrequency (m : Message) (v : Int) : Except PyError Message := do
  let p ← bytearraySet m.payload 1 v
  .ok { m with payload := p }

/-- `ChannelFrequencyMessage.__init__(number, frequency)`. -/
def ChannelFrequencyMessage.init (number frequency : Int) : Except PyError Message := do
  let m ← ChannelMessage.init (MESSAGE_CHANNEL_FREQUENCY : Nat) [0] number
  ChannelFrequencyMessage.setFrequency m frequency

/-- `ChannelFrequencyMessage()` with its defaults (frequency 66). -/
def ChannelFrequencyMessage.mkDefault : Except PyError Message :=
  ChannelFrequencyMessage.init 0 66

/-- `ChannelTXPowerMessage.setPower`: an unchecked store into payload byte 1. -/
def ChannelTXPowerMessage.setPower (m : Message) (v : Int) : Except PyError Message := do
  let p ← bytearraySet m.payload 1 v
  .ok { m with payload := p }

/-- `ChannelTXPowerMessage.__init__(number, power)`. -/
def ChannelTXPowerMessage.init (number power : Int) : Except PyError Message := do
  let m ← ChannelMessage.init (MESSAGE_CHANNEL_TX_POWER : Nat) [0] number
  ChannelTXPowerMessage.setPower m power

/-- `ChannelTXPowerMessage()` with its defaults. -/
def ChannelTXPowerMessage.mkDefault : Except PyError Message :=
  ChannelTXPowerMessage.init 0 0

/-- `NetworkKeyMessage.setNumber`: an unchecked store into payload byte 0. -/
def NetworkKeyMessage.setNumber (m : Message) (v : Int) : Except PyError Message := do
  let p ← bytearraySet m.payload 0 v
  .ok { m with payload := p }

/-- `NetworkKeyMessage.setKey`: the slice assignment `payload[1:] = key`,
which replaces everything after byte 0 with the key bytes, with no length
validation at all. -/
def NetworkKeyMessage.setKey (m : Message) (key : List Nat) : Message :=
  { m with payload := m.payload.take 1 ++ key }

/-- `NetworkKeyMessage.__init__(number, key)`. -/
def NetworkKeyMessage.init (number : Int) (key : List Nat) : Except PyError Message := do
  let m ← Message.init (MESSAGE_NETWORK_KEY : Nat) (List.replicate 9 0)
  let m ← NetworkKeyMessage.setNumber m number
  .ok (NetworkKeyMessage.setKey m key)

/-- `NetworkKeyMessage()` with its defaults (an 8-byte zero key). -/
def NetworkKeyMessage.mkDefault : Except PyError Message :=
  NetworkKeyMessage.init 0 (List.replicate 8 0)

/-- `TXPowerMessage.setPower`: an unchecked store into payload byte 1. -/
def TXPowerMessage.setPower (m : Message) (v : Int) : Except PyError Message := do
  let p ← bytearraySet m.payload 1 v
  .ok { m with payload := p }

/-- `TXPowerMessage.__init__(power)`. -/
def TXPowerMessage.init (power : Int) : Except PyError Message := do
  let m ← Message.init (MESSAGE_TX_POWER : Nat) [0, 0]
  TXPowerMessage.setPower m power

/-- `TXPowerMessage()` with its defaults. -/
def TXPowerMessage.mkDefault : Except PyError Message :=
  TXPowerMessage.init 0

/-- `SystemResetMessage()`. -/
def SystemResetMessage.mkDefault : Except PyError Message :=
  Message.init (MESSAGE_SYSTEM_RESET : Nat) [0]

/-- `ChannelOpenMessage()` with its default channel number. -/
def ChannelOpenMessage.mkDefault : Except PyError Message :=
  ChannelMessage.init (MESSAGE_CHANNEL_OPEN : Nat) [] 0

/-- `ChannelCloseMessage()` with its default channel number. -/
def ChannelCloseMessage.mkDefault : Except PyError Message :=
  ChannelMessage.init (MESSAGE_CHANNEL_CLOSE : Nat) [] 0

/-- `ChannelRequestMessage.setMessageID`: explicit range check, then a store
into payload byte 1. -/
def ChannelRequestMessage.setMessageID (m : Message) (v : Int) : Except PyError Message :=
  if v > 0xFF ∨ v < 0 then
    .error (.messageError "Could not set message ID (out of range)." none)
  else do
    let p ← bytearraySet m.payload 1 v
    .ok { m with payload := p }

/-- `ChannelRequestMessage.__init__(number, message_id)`. -/
def ChannelRequestMessage.init (number message_id : Int) : Except PyError Message := do
  let m ← ChannelMessage.init (MESSAGE_CHANNEL_REQUEST : Nat) [0] number
  ChannelRequestMessage.setMessageID m message_id

/-- `ChannelRequestMessage()` with its defaults (message id
`MESSAGE_CHANNEL_STATUS`). -/
def ChannelRequestMessage.mkDefault : Except PyError Message :=
  ChannelRequestMessage.init 0 (MESSAGE_CHANNEL_STATUS : Nat)

/-- `ChannelBroadcastDataMessage()` with its defaults (7 zero data bytes). -/
def ChannelBroadcastDataMessage.mkDefault : Except PyError Message :=
  ChannelMessage.init (MESSAGE_CHANNEL_BROADCAST_DATA : Nat) (List.replicate 7 0) 0

/-- `ChannelAcknowledgedDataMessage()` with its defaults. -/
def ChannelAcknowledgedDataMessage.mkDefault : Except PyError Message :=
  ChannelMessage.init (MESSAGE_CHANNEL_ACKNOWLEDGED_DATA : Nat) (List.replicate 7 0) 0

/-- `ChannelBurstDataMessage()` with its defaults. -/
def ChannelBurstDataMessage.mkDefault : Except PyError Message :=
  ChannelMessage.init (MESSAGE_CHANNEL_BURST_DATA : Nat) (List.replicate 7 0) 0

/-- `ChannelEventMessage.setMessageID`: explicit range check, then a store
into payload byte 1. -/
def ChannelEventMessage.setMessageID (m : Message) (v : Int) : Except PyError Message :=
  if v > 0xFF ∨ v < 0 then
    .error (.messageError "Could not set message ID (out of range)." none)
  else do
    let p ← bytearraySet m.payload 1 v
    .ok { m with payload := p }

/-- `ChannelEventMessage.setMessageCode`: explicit range check, then a store
into payload byte 2. -/
def ChannelEventMessage.setMessageCode (m : Message) (v : Int) : Except PyError Message :=
  if v > 0xFF ∨ v < 0 then
    .error (.messageError "Could not set message code (out of range)." none)
  else do
    let p ← bytearraySet m.payload 2 v
    .ok { m with payload := p }

/-- `ChannelEventMessage.__init__(number, message_id, message_code)`. -/
def ChannelEventMessage.init (number message_id message_code : Int) : Except PyError Message := do
  let m ← ChannelMessage.init (MESSAGE_CHANNEL_EVENT : Nat) [0, 0] number
  let m ← ChannelEventMessage.setMessageID m message_id
  ChannelEventMessage.setMessageCode m message_code

/-- `ChannelEventMessage()` with its defaults. -/
def ChannelEventMessage.mkDefault : Except PyError Message :=
  ChannelEventMessage.init 0 0 0

/-- `ChannelStatusMessage.setStatus`: explicit range check naming the field,
then a store into payload byte 1. -/
def ChannelStatusMessage.setStatus (m : Message) (status : Int) : Except PyError Message :=
  if status > 0xFF ∨ status < 0 then
    .error (.messageError "Could not set channel status (out of range)." none)
  else do
    let p ← bytearraySet m.payload 1 status
    .ok { m with payload := p }

/-- `ChannelStatusMessage.__init__(number, status)`. -/
def ChannelStatusMessage.init (number status : Int) : Except PyError Message := do
  let m ← ChannelMessage.init (MESSAGE_CHANNEL_STATUS : Nat) [0] number
  ChannelStatusMessage.setStatus m status

/-- `ChannelStatusMessage()` with its defaults. -/
def ChannelStatusMessage.mkDefault : Except PyError Message :=
  ChannelStatusMessage.init 0 0

/-- `VersionMessage.setVersion`: requires exactly 9 bytes, then delegates to
`setPayload`. -/
def VersionMessage.setVersion (m : Message) (version : List Nat) : Except PyError Message :=
  if version.length ≠ 9 then
    .error (.messageError "Could not set ANT version (expected 9 bytes)." none)
  else
    m.setPayload version

/-- `VersionMessage.__init__(version)`. -/
def VersionMessage.init (version : List Nat) : Except PyError Message := do
  let m ← Message.init (MESSAGE_VERSION : Nat) (List.replicate 9 0)
  VersionMessage.setVersion m version

/-- `VersionMessage()` with its defaults (9 zero bytes). -/
def VersionMessage.mkDefault : Except PyError Message :=
  VersionMessage.init (List.replicate 9 0)

/-- `StartupMessage.setStartupMessage`: explicit range check, then a store
into payload byte 0. -/
def StartupMessage.setStartupMessage (m : Message) (v : Int) : Except PyError Message :=
  if v > 0xFF ∨ v < 0 then
    .error (.messageError "Could not set start-up message (out of range)." none)
  else do
    let p ← bytearraySet m.payload 0 v
    .ok { m with payload := p }

/-- `StartupMessage.__init__(startupMessage)`. -/
def StartupMessage.init (v : Int) : Except PyError Message := do
  let m ← Message.init (MESSAGE_STARTUP : Nat) [0]
  StartupMessage.setStartupMessage m v

/-- `StartupMessage()` with its defaults. -/
def StartupMessage.mkDefault : Except PyError Message :=
  StartupMessage.init 0

/-- `CapabilitiesMessage.getAdvOptions2`: payload byte 4 when the payload has
5 bytes, otherwise the defined default `0x00`. -/
def CapabilitiesMessage.getAdvOptions2 (m : Message) : Nat :=
  if m.payload.length = 5 then m.payload.getD 4 0 else 0x00

/-- `CapabilitiesMessage.setMaxChannels`. -/
def CapabilitiesMessage.setMaxChannels (m : Message) (v : Int) : Except PyError Message :=
  if v > 0xFF ∨ v < 0 then
    .error (.messageError "Could not set max channels (out of range)." none)
  else do
    let p ← bytearraySet m.payload 0 v
    .ok { m with payload := p }

/-- `CapabilitiesMessage.setMaxNetworks`. -/
def CapabilitiesMessage.setMaxNetworks (m : Message) (v : Int) : Except PyError Message :=
  if v > 0xFF ∨ v < 0 then
    .error (.messageError "Could not set max networks (out of range)." none)
  else do
    let p ← bytearraySet m.payload 1 v
    .ok { m with payload := p }

/-- `CapabilitiesMessage.setStdOptions`. -/
def CapabilitiesMessage.setStdOptions (m : Message) (v : Int) : Except PyError Message :=
  if v > 0xFF ∨ v < 0 then
    .error (.messageError "Could not set std options (out of range)." none)
  else do
    let p ← bytearraySet m.payload 2 v
    .ok { m with payload := p }

/-- `CapabilitiesMessage.setAdvOptions`. -/
def CapabilitiesMessage.setAdvOptions (m : Message) (v : Int) : Except PyError Message :=
  if v > 0xFF ∨ v < 0 then
    .error (.messageError "Could not set adv options (out of range)." none)
  else do
    let p ← bytearraySet m.payload 3 v
    .ok { m with payload := p }

/-- `CapabilitiesMessage.setAdvOptions2`: range check, then append a zero byte
when the payload still has 4 bytes, then store into payload byte 4. -/
def CapabilitiesMessage.setAdvOptions2 (m : Message) (v : Int) : Except PyError Message :=
  if v > 0xFF ∨ v < 0 then
    .error (.messageError "Could not set adv options 2 (out of range)." none)
  else
    let p0 := if m.payload.length = 4 then m.payload ++ [0] else m.payload
    do
      let p ← bytearraySet p0 4 v
      .ok { m with payload := p }

/-- `CapabilitiesMessage.__init__(max_channels, max_nets, std_opts, adv_opts,
adv_opts2)`: `adv_opts2` is `none` only when the caller explicitly passes
`None`; any other value (including the default `0x00`) reaches
`setAdvOptions2`. -/
def CapabilitiesMessage.init (max_channels max_nets std_opts adv_opts : Int)
    (adv_opts2 : Option Int) : Except PyError Message := do
  let m ← Message.init (MESSAGE_CAPABILITIES : Nat) [0, 0, 0, 0]
  let m ← CapabilitiesMessage.setMaxChannels m max_channels
  let m ← CapabilitiesMessage.setMaxNetworks m max_nets
  let m ← CapabilitiesMessage.setStdOptions m std_opts
  let m ← CapabilitiesMessage.setAdvOptions m adv_opts
  match adv_opts2 with
  | none => .ok m
  | some v => CapabilitiesMessage.setAdvOptions2 m v

/-- `CapabilitiesMessage()` with its defaults: the Python default argument is
`adv_opts2=0x00`, which is not `None`, so `setAdvOptions2` runs. -/
def CapabilitiesMessage.mkDefault : Except PyError Message :=
  CapabilitiesMessage.init 0 0 0 0 (some 0)

/-- `SerialNumberMessage.setSerialNumber`: requires exactly 4 bytes, then
delegates to `setPayload`. -/
def SerialNumberMessage.setSerialNumber (m : Message) (serial : List Nat) :
    Except PyError Message :=
  if serial.length ≠ 4 then
    .error (.messageError "Could not set serial number (expected 4 bytes)." none)
  else
    m.setPayload serial

/-- `SerialNumberMessage.__init__(serial)`: the base payload defaults to the
empty bytearray. -/
def SerialNumberMessage.init (serial : List Nat) : Except PyError Message := do
  let m ← Message.init (MESSAGE_SERIAL_NUMBER : Nat) []
  SerialNumberMessage.setSerialNumber m serial

/-- `SerialNumberMessage()` with its defaults (4 zero bytes). -/
def SerialNumberMessage.mkDefault : Except PyError Message :=
  SerialNumberMessage.init (List.replicate 4 0)

/-- The entries of the `TYPE_TABLE` dictionary literal, in source order: each
numeric type code paired with the zero-argument constructor call of the
matching variant. -/
def TYPE_TABLE_ENTRIES : List (Nat × Except PyError Message) :=
  [(MESSAGE_CHANNEL_UNASSIGN, ChannelUnassignMessage.mkDefault),
   (MESSAGE_CHANNEL_ASSIGN, ChannelAssignMessage.mkDefault),
   (MESSAGE_CHANNEL_ID, ChannelIDMessage.mkDefault),
   (MESSAGE_CHANNEL_PERIOD, ChannelPeriodMessage.mkDefault),
   (MESSAGE_CHANNEL_SEARCH_TIMEOUT, ChannelSearchTimeoutMessage.mkDefault),
   (MESSAGE_CHANNEL_FREQUENCY, ChannelFrequencyMessage.mkDefault),
   (MESSAGE_CHANNEL_TX_POWER, ChannelTXPowerMessage.mkDefault),
   (MESSAGE_NETWORK_KEY, NetworkKeyMessage.mkDefault),
   (MESSAGE_TX_POWER, TXPowerMessage.mkDefault),
   (MESSAGE_SYSTEM_RESET, SystemResetMessage.mkDefault),
   (MESSAGE_CHANNEL_OPEN, ChannelOpenMessage.mkDefault),
   (MESSAGE_CHANNEL_CLOSE, ChannelCloseMessage.mkDefault),
   (MESSAGE_CHANNEL_REQUEST, ChannelRequestMessage.mkDefault),
   (MESSAGE_CHANNEL_BROADCAST_DATA, ChannelBroadcastDataMessage.mkDefault),
   (MESSAGE_CHANNEL_ACKNOWLEDGED_DATA, ChannelAcknowledgedDataMessage.mkDefault),
   (MESSAGE_CHANNEL_BURST_DATA, ChannelBurstDataMessage.mkDefault),
   (MESSAGE_CHANNEL_EVENT, ChannelEventMessage.mkDefault),
   (MESSAGE_CHANNEL_STATUS, ChannelStatusMessage.mkDefault),
   (MESSAGE_VERSION, VersionMessage.mkDefault),
   (MESSAGE_CAPABILITIES, CapabilitiesMessage.mkDefault),
   (MESSAGE_SERIAL_NUMBER, SerialNumberMessage.mkDefault),
   (MESSAGE_STARTUP, StartupMessage.mkDefault)]

/-- `TYPE_TABLE`: the static type registry, mapping a numeric type code to the
zero-argument constructor call of the matching variant (`none` for an
unregistered code, which the dictionary lookup turns into a `KeyError`). -/
def TYPE_TABLE (t : Nat) : Option (Except PyError Message) :=
  (TYPE_TABLE_ENTRIES.find? (fun e => e.1 == t)).map (fun e => e.2)

/-- `Message.getHandler(raw)`: decode into `self`, look the decoded type code
up in `TYPE_TABLE`, construct the variant and install the decoded payload into
it. Returns the post-state of `self` next to the outcome. -/
def Message.getHandler (m : Message) (raw : List Nat) : Message × Except PyError Message :=
  match Message.decode m raw with
  | (m1, .error e) => (m1, .error e)
  | (m1, .ok _) =>
    match TYPE_TABLE m1.type_ with
    | none => (m1, .error (.keyError m1.type_))
    | some ctor =>
      match ctor with
      | .error e => (m1, .error e)
      | .ok msg =>
        match msg.setPayload m1.payload with
        | .error e => (m1, .error e)
        | .ok msg1 => (m1, .ok msg1)

/-- Checks a registry entry: the constructor call succeeds and yields a
message whose type code is the entry key. -/
def entryOk (pr : Nat × Except PyError Message) : Bool :=
  match pr.2 with
  | .ok msg => msg.type_ == pr.1
  | .error _ => false

/-- A single-bit flip of a byte value: XOR with `2 ^ k` (bit `k`). -/
def flipBit (b k : Nat) : Nat := b ^^^ (1 <<< k)

/-- The buffer with the byte at position `i` flipped at bit `k`. -/
def flipBitAt (f : List Nat) (i k : Nat) : List Nat :=
  f.set i (flipBit (f.getD i 0) k)

end PythonAnt

namespace PythonAnt

theorem xor_ne_self_of_ne_zero (a b : Nat) (hb : b ≠ 0) : a ^^^ b ≠ a := by
  intro h
  apply hb
  calc b = a ^^^ (a ^^^ b) := by rw [← Nat.xor_assoc, Nat.xor_self, Nat.zero_xor]
  _ = a ^^^ a := by rw [h]
  _ = 0 := Nat.xor_self a

theorem foldl_xor_init (l : List Nat) : ∀ x d : Nat,
    l.foldl (· ^^^ ·) (x ^^^ d) = l.foldl (· ^^^ ·) x ^^^ d := by
  induction l with
  | nil => intro x d; simp
  | cons a t ih =>
    intro x d
    simp only [List.foldl_cons]
    rw [show x ^^^ d ^^^ a = x ^^^ a ^^^ d by
      rw [Nat.xor_assoc, Nat.xor_assoc, Nat.xor_comm d a]]
    exact ih (x ^^^ a) d

theorem foldl_xor_set (l : List Nat) : ∀ (j : Nat), j < l.length → ∀ (x v : Nat),
    (l.set j v).foldl (· ^^^ ·) x = l.foldl (· ^^^ ·) x ^^^ (l.getD j 0 ^^^ v) := by
  induction l with
  | nil => intro j hj; simp at hj
  | cons a t ih =>
    intro j hj x v
    cases j with
    | zero =>
      simp only [List.set_cons_zero, List.foldl_cons, List.getD_cons_zero]
      rw [show x ^^^ v = x ^^^ a ^^^ (a ^^^ v) by
        rw [Nat.xor_assoc, ← Nat.xor_assoc a a v, Nat.xor_self, Nat.zero_xor]]
      exact foldl_xor_init t (x ^^^ a) (a ^^^ v)
    | succ j =>
      simp only [List.set_cons_succ, List.foldl_cons, List.getD_cons_succ]
      exact ih j (by simpa using hj) (x ^^^ a) v

/-- Decoding a well-formed frame header `[SYNC, len q, t] ++ q ++ [c]`: all
checks up to the checksum comparison pass, the instance is mutated to
`⟨t, q⟩`, and the outcome is decided by the checksum comparison alone. -/
theorem decode_frame (m0 : Message) (t : Nat) (q : List Nat) (c : Nat)
    (h1 : 1 ≤ q.length) (h9 : q.length ≤ 9) (ht : t ≤ 255) :
    Message.decode m0 ([MESSAGE_TX_SYNC, q.length, t] ++ (q ++ [c])) =
      if Message.getChecksum ⟨t, q⟩ ≠ c then
        (⟨t, q⟩, .error Message.checksumError)
      else
        (⟨t, q⟩, .ok (q.length + 4)) := by
  have elen : ([MESSAGE_TX_SYNC, q.length, t] ++ (q ++ [c])).length = q.length + 4 := by
    simp
  have e0 : ([MESSAGE_TX_SYNC, q.length, t] ++ (q ++ [c])).getD 0 0 = MESSAGE_TX_SYNC := by
    rw [List.getD_append _ _ _ _ (by simp)]; rfl
  have e1 : ([MESSAGE_TX_SYNC, q.length, t] ++ (q ++ [c])).getD 1 0 = q.length := by
    rw [List.getD_append _ _ _ _ (by simp)]; rfl
  have e2 : ([MESSAGE_TX_SYNC, q.length, t] ++ (q ++ [c])).getD 2 0 = t := by
    rw [List.getD_append _ _ _ _ (by simp)]; rfl
  have e3 : ([MESSAGE_TX_SYNC, q.length, t] ++ (q ++ [c])).getD (q.length + 3) 0 = c := by
    rw [List.getD_append_right _ _ _ _ (by simp)]
    have : q.length + 3 - [MESSAGE_TX_SYNC, q.length, t].length = q.length := by simp
    rw [this, List.getD_append_right _ _ _ _ (le_refl _)]
    simp
  have edrop : ([MESSAGE_TX_SYNC, q.length, t] ++ (q ++ [c])).drop 3 = q ++ [c] := by
    rw [List.drop_left' (by simp)]
  unfold Message.decode
  rw [elen, e0, e1, e2, e3, edrop]
  rw [if_neg (by omega)]
  rw [if_neg (by simp)]
  rw [if_neg (by omega)]
  rw [if_neg (by omega)]
  rw [Message.setType, if_neg (by omega)]
  simp only [Int.toNat_natCast]
  rw [Message.setPayload, List.take_left, if_neg (by omega)]
  rfl

theorem decode_incomplete_short (m : Message) (raw : List Nat) (h : raw.length < 5) :
    Message.decode m raw = (m, .error Message.incompleteError) := by
  unfold Message.decode
  rw [if_pos h]

theorem decode_bad_sync (m : Message) (raw : List Nat) (h5 : 5 ≤ raw.length)
    (hs : raw.getD 0 0 ≠ MESSAGE_TX_SYNC) :
    Message.decode m raw = (m, .error Message.syncError) := by
  unfold Message.decode
  rw [if_neg (by omega), if_pos hs]

theorem decode_bad_length (m : Message) (raw : List Nat) (h5 : 5 ≤ raw.length)
    (hs : raw.getD 0 0 = MESSAGE_TX_SYNC) (hl : 9 < raw.getD 1 0) :
    Message.decode m raw = (m, .error Message.lengthError) := by
  unfold Message.decode
  rw [if_neg (by omega), if_neg (not_not_intro hs), if_pos hl]

theorem decode_incomplete_long (m : Message) (raw : List Nat) (h5 : 5 ≤ raw.length)
    (hs : raw.getD 0 0 = MESSAGE_TX_SYNC) (hl : raw.getD 1 0 ≤ 9)
    (hshort : raw.length < raw.getD 1 0 + 4) :
    Message.decode m raw = (m, .error Message.incompleteError) := by
  unfold Message.decode
  rw [if_neg (by omega), if_neg (not_not_intro hs), if_neg (by omega), if_pos hshort]

theorem decode_bad_checksum (m : Message) (raw : List Nat) (h5 : 5 ≤ raw.length)
    (hs : raw.getD 0 0 = MESSAGE_TX_SYNC) (hl : raw.getD 1 0 ≤ 9)
    (havail : raw.getD 1 0 + 4 ≤ raw.length) (ht : raw.getD 2 0 ≤ 255)
    (hchk : Message.getChecksum ⟨raw.getD 2 0, (raw.drop 3).take (raw.getD 1 0)⟩ ≠
      raw.getD (raw.getD 1 0 + 3) 0) :
    Message.decode m raw =
      (⟨raw.getD 2 0, (raw.drop 3).take (raw.getD 1 0)⟩, .error Message.checksumError) := by
  unfold Message.decode
  rw [if_neg (by omega), if_neg (not_not_intro hs), if_neg (by omega), if_neg (by omega)]
  rw [Message.setType, if_neg (by omega)]
  simp only [Int.toNat_natCast]
  rw [Message.setPayload, if_neg (by rw [List.length_take, List.length_drop]; omega)]
  simp only []
  rw [if_pos hchk]

theorem decode_success (m : Message) (raw : List Nat) (h5 : 5 ≤ raw.length)
    (hs : raw.getD 0 0 = MESSAGE_TX_SYNC) (hl : raw.getD 1 0 ≤ 9)
    (havail : raw.getD 1 0 + 4 ≤ raw.length) (ht : raw.getD 2 0 ≤ 255)
    (hchk : Message.getChecksum ⟨raw.getD 2 0, (raw.drop 3).take (raw.getD 1 0)⟩ =
      raw.getD (raw.getD 1 0 + 3) 0) :
    Message.decode m raw =
      (⟨raw.getD 2 0, (raw.drop 3).take (raw.getD 1 0)⟩, .ok (raw.getD 1 0 + 4)) := by
  unfold Message.decode
  rw [if_neg (by omega), if_neg (not_not_intro hs), if_neg (by omega), if_neg (by omega)]
  rw [Message.setType, if_neg (by omega)]
  simp only [Int.toNat_natCast]
  rw [Message.setPayload, if_neg (by rw [List.length_take, List.length_drop]; omega)]
  simp only []
  rw [if_neg (not_not_intro hchk)]
  have hlen : ((raw.drop 3).take (raw.getD 1 0)).length = raw.getD 1 0 := by
    rw [List.length_take, List.length_drop]; omega
  simp only [Message.getSize, hlen]

theorem exceptBindOk {α β : Type} (a : α) (f : α → Except PyError β) :
    (Except.ok a >>= f) = f a := rfl

theorem encode_eq (m : Message) :
    Message.encode m =
      [MESSAGE_TX_SYNC, m.payload.length, m.type_] ++ (m.payload ++ [m.getChecksum]) := rfl

theorem decode_encode (m0 m : Message) (ht : m.type_ ≤ 255)
    (h1 : 1 ≤ m.payload.length) (h9 : m.payload.length ≤ 9) :
    Message.decode m0 (Message.encode m) = (⟨m.type_, m.payload⟩, .ok (m.payload.length + 4)) := by
  rw [encode_eq, decode_frame m0 m.type_ m.payload m.getChecksum h1 h9 ht]
  rw [if_neg (not_not_intro rfl)]

/-- C1 (corrected): encoding then decoding restores the type, the payload and
reports `len(p) + 4` consumed bytes for every type `t ≤ 255` and payload of
length 1 to 9; for the empty payload the encoded frame has only 4 bytes, so
decoding it fails with the Incomplete error instead of succeeding. -/
theorem spec_C1_roundtrip (m0 : Message) (t : Nat) (p : List Nat)
    (ht : t ≤ 255) (hb : ∀ b ∈ p, b ≤ 255) (h9 : p.length ≤ 9) :
    (1 ≤ p.length →
      Message.decode m0 (Message.encode ⟨t, p⟩) = (⟨t, p⟩, .ok (p.length + 4))) ∧
    (p.length = 0 →
      Message.decode m0 (Message.encode ⟨t, p⟩) = (m0, .error Message.incompleteError)) := by
  constructor
  · intro h1
    exact decode_encode m0 ⟨t, p⟩ ht h1 h9
  · intro h0
    apply decode_incomplete_short
    rw [encode_eq]
    simp only [List.length_append, List.length_cons, List.length_nil]
    omega

/-- C1 witness: the concrete channel-open frame of the spec scenario. -/
theorem spec_C1_witness :
    Message.decode { type_ := 0, payload := [] } (Message.encode { type_ := 0x4B, payload := [3] }) =
      ({ type_ := 0x4B, payload := [3] }, .ok 5) :=
  (spec_C1_roundtrip { type_ := 0, payload := [] } 0x4B [3]
    (by decide) (by decide) (by decide)).1 (by decide)

/-- C1 counterexample: with the empty payload (allowed by the claim via
`0 ≤ len(p)`), the encoded frame is 4 bytes and decode fails Incomplete, so
`decode(encode(t, p))` does not succeed as claimed. -/
theorem spec_C1_counterexample :
    Message.encode { type_ := 0, payload := [] } = [0xA4, 0, 0, 0xA4] ∧
    Message.decode { type_ := 0, payload := [] } (Message.encode { type_ := 0, payload := [] }) =
      ({ type_ := 0, payload := [] }, .error Message.incompleteError) := by
  exact ⟨rfl, rfl⟩

/-- C2 (confirmed): decode applies its checks in the claimed order with the
claimed distinct outcomes: fewer than 5 bytes is Incomplete regardless of
content; then a wrong first byte is Corrupted; then a declared length over 9
is Malformed; then a buffer shorter than `length + 4` is Incomplete; then a
checksum byte at offset `length + 3` differing from the XOR of sync, length,
type and payload is Corrupted; otherwise decode succeeds returning
`length + 4` consumed bytes. -/
theorem spec_C2_validation_order (m : Message) (raw : List Nat)
    (hbytes : ∀ b ∈ raw, b ≤ 255) :
    (raw.length < 5 → Message.decode m raw = (m, .error Message.incompleteError)) ∧
    (5 ≤ raw.length → raw.getD 0 0 ≠ MESSAGE_TX_SYNC →
      Message.decode m raw = (m, .error Message.syncError)) ∧
    (5 ≤ raw.length → raw.getD 0 0 = MESSAGE_TX_SYNC → 9 < raw.getD 1 0 →
      Message.decode m raw = (m, .error Message.lengthError)) ∧
    (5 ≤ raw.length → raw.getD 0 0 = MESSAGE_TX_SYNC → raw.getD 1 0 ≤ 9 →
      raw.length < raw.getD 1 0 + 4 →
      Message.decode m raw = (m, .error Message.incompleteError)) ∧
    (5 ≤ raw.length → raw.getD 0 0 = MESSAGE_TX_SYNC → raw.getD 1 0 ≤ 9 →
      raw.getD 1 0 + 4 ≤ raw.length →
      Message.getChecksum ⟨raw.getD 2 0, (raw.drop 3).take (raw.getD 1 0)⟩ ≠
        raw.getD (raw.getD 1 0 + 3) 0 →
      (Message.decode m raw).2 = .error Message.checksumError) ∧
    (5 ≤ raw.length → raw.getD 0 0 = MESSAGE_TX_SYNC → raw.getD 1 0 ≤ 9 →
      raw.getD 1 0 + 4 ≤ raw.length →
      Message.getChecksum ⟨raw.getD 2 0, (raw.drop 3).take (raw.getD 1 0)⟩ =
        raw.getD (raw.getD 1 0 + 3) 0 →
      Message.decode m raw = (⟨raw.getD 2 0, (raw.drop 3).take (raw.getD 1 0)⟩,
        .ok (raw.getD 1 0 + 4))) := by
  have htb : 5 ≤ raw.length → raw.getD 2 0 ≤ 255 := by
    intro h5
    rw [List.getD_eq_getElem raw 0 (by omega)]
    exact hbytes _ (List.getElem_mem (by omega))
  refine ⟨?_, ?_, ?_, ?_, ?_, ?_⟩
  · exact fun h => decode_incomplete_short m raw h
  · exact fun h5 hs => decode_bad_sync m raw h5 hs
  · exact fun h5 hs hl => decode_bad_length m raw h5 hs hl
  · exact fun h5 hs hl hshort => decode_incomplete_long m raw h5 hs hl hshort
  · intro h5 hs hl havail hchk
    rw [decode_bad_checksum m raw h5 hs hl havail (htb h5) hchk]
  · intro h5 hs hl havail hchk
    exact decode_success m raw h5 hs hl havail (htb h5) hchk

/-- C2 witness: a valid one-byte-payload frame runs through all checks and
succeeds with 5 consumed bytes. -/
theorem spec_C2_witness :
    Message.decode { type_ := 0, payload := [] } [0xA4, 1, 0, 0, 0xA5] =
      ({ type_ := 0, payload := [0] }, .ok 5) := by
  have h := spec_C2_validation_order { type_ := 0, payload := [] } [0xA4, 1, 0, 0, 0xA5] (by decide)
  exact h.2.2.2.2.2 (by decide) (by decide) (by decide) (by decide) (by decide)

/-- C3 (confirmed): encode emits exactly the claimed frame: sync byte, payload
length, type, payload bytes in order, then a checksum byte equal to the
running XOR of sync, length, type and every payload byte; the total size is
`len(p) + 4`. -/
theorem spec_C3_encode_layout (m : Message) (ht : m.type_ ≤ 255)
    (h9 : m.payload.length ≤ 9) (hb : ∀ b ∈ m.payload, b ≤ 255) :
    Message.encode m =
      [MESSAGE_TX_SYNC, m.payload.length, m.type_] ++ m.payload ++
        [m.payload.foldl (fun acc b => acc ^^^ b)
          ((MESSAGE_TX_SYNC ^^^ m.payload.length) ^^^ m.type_)] ∧
    (Message.encode m).length = m.payload.length + 4 := by
  constructor
  · rw [encode_eq, List.append_assoc]
    rfl
  · rw [encode_eq]
    simp only [List.length_append, List.length_cons, List.length_nil]
    omega

/-- C3 witness: the concrete channel-open frame of the spec scenario. -/
theorem spec_C3_witness :
    Message.encode { type_ := 0x4B, payload := [3] } = [0xA4, 1, 0x4B, 3, 0xED] ∧
    (Message.encode { type_ := 0x4B, payload := [3] }).length = 5 := by
  have h := spec_C3_encode_layout { type_ := 0x4B, payload := [3] }
    (by decide) (by decide) (by decide)
  exact ⟨h.1.trans (by decide), h.2⟩

/-- C9 (confirmed): constructing a message with a 10-byte payload fails with
the Malformed payload error, while a 9-byte payload is accepted and encodes to
a 13-byte frame. -/
theorem spec_C9_length_bound (t : Int) (p : List Nat) (ht0 : 0 ≤ t) (ht : t ≤ 255) :
    (p.length = 10 →
      Message.init t p =
        .error (.messageError "Could not set payload (payload too long)." (some MALFORMED))) ∧
    (p.length = 9 →
      Message.init t p = .ok { type_ := t.toNat, payload := p } ∧
      (Message.encode { type_ := t.toNat, payload := p }).length = 13) := by
  have hT : ¬((t : Int) > 255 ∨ t < 0) := by omega
  constructor
  · intro h10
    rw [Message.init, Message.setType, if_neg hT, exceptBindOk, Message.setPayload, if_pos (by omega)]
  · intro h9
    refine ⟨?_, ?_⟩
    · rw [Message.init, Message.setType, if_neg hT, exceptBindOk, Message.setPayload, if_neg (by omega)]
    · rw [encode_eq]
      simp only [List.length_append, List.length_cons, List.length_nil]
      omega

/-- C9 witness: a 10-byte payload is rejected Malformed and a 9-byte payload
is accepted at type 0. -/
theorem spec_C9_witness :
    Message.init 0 (List.replicate 10 0) =
      .error (.messageError "Could not set payload (payload too long)." (some MALFORMED)) ∧
    Message.init 0 (List.replicate 9 0) = .ok { type_ := 0, payload := List.replicate 9 0 } := by
  refine ⟨(spec_C9_length_bound 0 (List.replicate 10 0) (by decide) (by decide)).1 (by decide), ?_⟩
  exact ((spec_C9_length_bound 0 (List.replicate 9 0) (by decide) (by decide)).2 (by decide)).1

/-- C10 (confirmed): when every check before the checksum comparison passes
but the checksum mismatches, the failing decode leaves the instance mutated:
its type is the buffer type byte and its payload is the buffer payload slice;
the prior state is not restored. -/
theorem spec_C10_mutation_on_checksum_failure (m : Message) (raw : List Nat)
    (h5 : 5 ≤ raw.length) (hs : raw.getD 0 0 = MESSAGE_TX_SYNC)
    (hl : raw.getD 1 0 ≤ 9) (havail : raw.getD 1 0 + 4 ≤ raw.length)
    (ht : raw.getD 2 0 ≤ 255)
    (hchk : Message.getChecksum ⟨raw.getD 2 0, (raw.drop 3).take (raw.getD 1 0)⟩ ≠
      raw.getD (raw.getD 1 0 + 3) 0) :
    (Message.decode m raw).1.type_ = raw.getD 2 0 ∧
    (Message.decode m raw).1.payload = (raw.drop 3).take (raw.getD 1 0) ∧
    (Message.decode m raw).2 = .error Message.checksumError := by
  rw [decode_bad_checksum m raw h5 hs hl havail ht hchk]
  exact ⟨rfl, rfl, rfl⟩

/-- C10 witness: a frame with a wrong checksum byte leaves behind the type and
payload read from the buffer, not the pre-call state. -/
theorem spec_C10_witness :
    (Message.decode { type_ := 7, payload := [1, 2] } [0xA4, 1, 0, 0, 0]).1.type_ = 0 ∧
    (Message.decode { type_ := 7, payload := [1, 2] } [0xA4, 1, 0, 0, 0]).1.payload = [0] ∧
    (Message.decode { type_ := 7, payload := [1, 2] } [0xA4, 1, 0, 0, 0]).2 =
      .error Message.checksumError := by
  have h := spec_C10_mutation_on_checksum_failure { type_ := 7, payload := [1, 2] }
    [0xA4, 1, 0, 0, 0] (by decide) (by decide) (by decide) (by decide) (by decide) (by decide)
  exact h

theorem exceptBindError {α β : Type} (e : PyError) (f : α → Except PyError β) :
    ((Except.error e : Except PyError α) >>= f) = .error e := rfl

theorem setPayload_ok_inv (m m2 : Message) (p : List Nat)
    (h : m.setPayload p = .ok m2) : m2.payload = p ∧ m2.type_ = m.type_ ∧ p.length ≤ 9 := by
  rw [Message.setPayload] at h
  split at h
  next => exact absurd h (by simp)
  next hle =>
    injection h with h2
    subst h2
    exact ⟨rfl, rfl, by omega⟩

/-- C4 (corrected): the generic Message-level operations do enforce the
invariant: setType rejects any type outside 0..255 with an error, an
accepted setType leaves the type in 0..255 and the payload untouched,
setPayload rejects any payload longer than 9 bytes with an error, an accepted
setPayload leaves a payload of at most 9 bytes, and every message built by
the Message constructor satisfies both bounds. The claim as stated is
nevertheless false: NetworkKeyMessage.setKey bypasses this validation (see
the counterexample). -/
theorem spec_C4_invariant (m : Message) (t : Int) (p : List Nat) :
    ((t > 255 ∨ t < 0) → m.setType t =
      .error (.messageError "Could not set type (type out of range)." (some CORRUPTED))) ∧
    (∀ m2, m.setType t = .ok m2 → m2.type_ ≤ 255 ∧ m2.payload = m.payload) ∧
    (9 < p.length → m.setPayload p =
      .error (.messageError "Could not set payload (payload too long)." (some MALFORMED))) ∧
    (∀ m2, m.setPayload p = .ok m2 → m2.payload.length ≤ 9 ∧ m2.type_ = m.type_) ∧
    (∀ m2, Message.init t p = .ok m2 → m2.type_ ≤ 255 ∧ m2.payload.length ≤ 9) := by
  refine ⟨?_, ?_, ?_, ?_, ?_⟩
  · intro hrange
    rw [Message.setType, if_pos hrange]
  · intro m2 h
    rw [Message.setType] at h
    split at h
    next => exact absurd h (by simp)
    next hc =>
      injection h with h2
      subst h2
      refine ⟨?_, rfl⟩
      show t.toNat ≤ 255
      omega
  · intro hlong
    rw [Message.setPayload, if_pos (by omega)]
  · intro m2 h
    obtain ⟨hp, ht, hl⟩ := setPayload_ok_inv m m2 p h
    exact ⟨hp ▸ hl, ht⟩
  · intro m2 h
    rw [Message.init] at h
    by_cases hc : ((t : Int) > 255 ∨ t < 0)
    · rw [Message.setType, if_pos hc, exceptBindError] at h
      exact absurd h (by simp)
    · rw [Message.setType, if_neg hc, exceptBindOk] at h
      obtain ⟨hp, ht, hl⟩ := setPayload_ok_inv _ m2 p h
      refine ⟨?_, hp ▸ hl⟩
      rw [ht]
      show t.toNat ≤ 255
      omega

/-- C4 witness: an out-of-range type and an over-long payload are both
rejected with the claimed errors. -/
theorem spec_C4_witness :
    Message.setType { type_ := 0, payload := [] } 256 =
      .error (.messageError "Could not set type (type out of range)." (some CORRUPTED)) ∧
    Message.setPayload { type_ := 0, payload := [] } (List.replicate 10 0) =
      .error (.messageError "Could not set payload (payload too long)." (some MALFORMED)) := by
  have h := spec_C4_invariant { type_ := 0, payload := [] } 256 (List.replicate 10 0)
  exact ⟨h.1 (by decide), h.2.2.1 (by decide)⟩

/-- C4 counterexample: NetworkKeyMessage.setKey is a mutation that violates
the payload bound without any error: on the default-constructed network-key
message (9-byte payload), installing a 9-byte key silently yields a 10-byte
payload. -/
theorem spec_C4_counterexample :
    NetworkKeyMessage.mkDefault =
      .ok { type_ := 0x46, payload := [0, 0, 0, 0, 0, 0, 0, 0, 0] } ∧
    (NetworkKeyMessage.setKey { type_ := 0x46, payload := [0, 0, 0, 0, 0, 0, 0, 0, 0] }
      (List.replicate 9 0xFF)).payload.length = 10 := ⟨rfl, rfl⟩

/-- C5 (corrected): for every declared field of every variant, an out-of-range
value is rejected with payload unchanged (each raise precedes any store, so
the error branch carries no new state), but only the setters with an explicit
validation fail with a MessageError naming the field: channel number, both
message-ID setters, message code, channel status, startup message and the
five capabilities fields. The unchecked one-byte setters fail with the
byte-store generic ValueError not naming the field: the network-key network
number, channel type, search timeout, frequency, both power fields, network
number, device type and transmission type (the index hypotheses say the byte
exists, as on every constructed variant). The two-byte setters, device number
and channel period, fail with struct.error outside 0..65535. -/
theorem spec_C5_field_range (m : Message) (v : Int) (hv : 255 < v ∨ v < 0) :
    ChannelMessage.setChannelNumber m v =
      .error (.messageError "Could not set channel number (out of range)." none) ∧
    ChannelRequestMessage.setMessageID m v =
      .error (.messageError "Could not set message ID (out of range)." none) ∧
    ChannelEventMessage.setMessageID m v =
      .error (.messageError "Could not set message ID (out of range)." none) ∧
    ChannelEventMessage.setMessageCode m v =
      .error (.messageError "Could not set message code (out of range)." none) ∧
    ChannelStatusMessage.setStatus m v =
      .error (.messageError "Could not set channel status (out of range)." none) ∧
    StartupMessage.setStartupMessage m v =
      .error (.messageError "Could not set start-up message (out of range)." none) ∧
    CapabilitiesMessage.setMaxChannels m v =
      .error (.messageError "Could not set max channels (out of range)." none) ∧
    CapabilitiesMessage.setMaxNetworks m v =
      .error (.messageError "Could not set max networks (out of range)." none) ∧
    CapabilitiesMessage.setStdOptions m v =
      .error (.messageError "Could not set std options (out of range)." none) ∧
    CapabilitiesMessage.setAdvOptions m v =
      .error (.messageError "Could not set adv options (out of range)." none) ∧
    CapabilitiesMessage.setAdvOptions2 m v =
      .error (.messageError "Could not set adv options 2 (out of range)." none) ∧
    (0 < m.payload.length →
      NetworkKeyMessage.setNumber m v =
        .error (.valueError "byte must be in range(0, 256)")) ∧
    (1 < m.payload.length →
      ChannelAssignMessage.setChannelType m v =
        .error (.valueError "byte must be in range(0, 256)") ∧
      ChannelSearchTimeoutMessage.setTimeout m v =
        .error (.valueError "byte must be in range(0, 256)") ∧
      ChannelFrequencyMessage.setFrequency m v =
        .error (.valueError "byte must be in range(0, 256)") ∧
      ChannelTXPowerMessage.setPower m v =
        .error (.valueError "byte must be in range(0, 256)") ∧
      TXPowerMessage.setPower m v =
        .error (.valueError "byte must be in range(0, 256)")) ∧
    (2 < m.payload.length →
      ChannelAssignMessage.setNetworkNumber m v =
        .error (.valueError "byte must be in range(0, 256)")) ∧
    (3 < m.payload.length →
      ChannelIDMessage.setDeviceType m v =
        .error (.valueError "byte must be in range(0, 256)")) ∧
    (4 < m.payload.length →
      ChannelIDMessage.setTransmissionType m v =
        .error (.valueError "byte must be in range(0, 256)")) ∧
    (∀ w : Int, 65535 < w ∨ w < 0 →
      ChannelIDMessage.setDeviceNumber m w =
        .error (.structError "H format requires 0 <= number <= 65535") ∧
      ChannelPeriodMessage.setChannelPeriod m w =
        .error (.structError "H format requires 0 <= number <= 65535")) := by
  refine ⟨?_, ?_, ?_, ?_, ?_, ?_, ?_, ?_, ?_, ?_, ?_, ?_, ?_, ?_, ?_, ?_, ?_⟩
  · rw [ChannelMessage.setChannelNumber, if_pos (by omega)]
  · rw [ChannelRequestMessage.setMessageID, if_pos (by omega)]
  · rw [ChannelEventMessage.setMessageID, if_pos (by omega)]
  · rw [ChannelEventMessage.setMessageCode, if_pos (by omega)]
  · rw [ChannelStatusMessage.setStatus, if_pos (by omega)]
  · rw [StartupMessage.setStartupMessage, if_pos (by omega)]
  · rw [CapabilitiesMessage.setMaxChannels, if_pos (by omega)]
  · rw [CapabilitiesMessage.setMaxNetworks, if_pos (by omega)]
  · rw [CapabilitiesMessage.setStdOptions, if_pos (by omega)]
  · rw [CapabilitiesMessage.setAdvOptions, if_pos (by omega)]
  · rw [CapabilitiesMessage.setAdvOptions2, if_pos (by omega)]
  · intro hlen
    rw [NetworkKeyMessage.setNumber, bytearraySet,
      if_neg (by omega), if_pos (by omega), exceptBindError]
  · intro hlen
    refine ⟨?_, ?_, ?_, ?_, ?_⟩
    · rw [ChannelAssignMessage.setChannelType, bytearraySet,
        if_neg (by omega), if_pos (by omega), exceptBindError]
    · rw [ChannelSearchTimeoutMessage.setTimeout, bytearraySet,
        if_neg (by omega), if_pos (by omega), exceptBindError]
    · rw [ChannelFrequencyMessage.setFrequency, bytearraySet,
        if_neg (by omega), if_pos (by omega), exceptBindError]
    · rw [ChannelTXPowerMessage.setPower, bytearraySet,
        if_neg (by omega), if_pos (by omega), exceptBindError]
    · rw [TXPowerMessage.setPower, bytearraySet,
        if_neg (by omega), if_pos (by omega), exceptBindError]
  · intro hlen
    rw [ChannelAssignMessage.setNetworkNumber, bytearraySet,
      if_neg (by omega), if_pos (by omega), exceptBindError]
  · intro hlen
    rw [ChannelIDMessage.setDeviceType, bytearraySet,
      if_neg (by omega), if_pos (by omega), exceptBindError]
  · intro hlen
    rw [ChannelIDMessage.setTransmissionType, bytearraySet,
      if_neg (by omega), if_pos (by omega), exceptBindError]
  · intro w hw
    constructor
    · rw [ChannelIDMessage.setDeviceNumber, structPackLEH, if_pos (by omega), exceptBindError]
    · rw [ChannelPeriodMessage.setChannelPeriod, structPackLEH, if_pos (by omega), exceptBindError]

/-- C5 witness: the three failure shapes at value 256 (and 65536): a checked
setter names the field in a MessageError, an unchecked setter raises the
generic ValueError, and a two-byte setter raises struct.error. -/
theorem spec_C5_witness :
    ChannelMessage.setChannelNumber { type_ := 0x42, payload := [0, 0, 0] } 256 =
      .error (.messageError "Could not set channel number (out of range)." none) ∧
    ChannelAssignMessage.setChannelType { type_ := 0x42, payload := [0, 0, 0] } 256 =
      .error (.valueError "byte must be in range(0, 256)") ∧
    ChannelPeriodMessage.setChannelPeriod { type_ := 0x43, payload := [0, 0, 0] } 65536 =
      .error (.structError "H format requires 0 <= number <= 65535") := by
  obtain ⟨hnum, -, -, -, -, -, -, -, -, -, -, -, hgrp, -, -, -, h2b⟩ :=
    spec_C5_field_range { type_ := 0x42, payload := [0, 0, 0] } 256 (by decide)
  obtain ⟨-, -, -, -, -, -, -, -, -, -, -, -, -, -, -, -, h2c⟩ :=
    spec_C5_field_range { type_ := 0x43, payload := [0, 0, 0] } 256 (by decide)
  exact ⟨hnum, (hgrp (by decide)).1, (h2c 65536 (by decide)).2⟩

/-- C5 counterexample: ChannelAssignMessage.setChannelType is a declared
field setter, yet an out-of-range value does not produce a field-range
MessageError naming the field: it produces the generic bytearray ValueError. -/
theorem spec_C5_counterexample :
    ChannelAssignMessage.mkDefault = .ok { type_ := 0x42, payload := [0, 0, 0] } ∧
    ChannelAssignMessage.setChannelType { type_ := 0x42, payload := [0, 0, 0] } 256 =
      .error (.valueError "byte must be in range(0, 256)") ∧
    (PyError.valueError "byte must be in range(0, 256)").isMessageError = false :=
  ⟨rfl, rfl, rfl⟩

/-- C6 (code bug): the Capabilities constructor appends the optional 5th byte
even when adv-options-2 is not explicitly set, because the default argument is
0x00 rather than None, so the `is not None` guard (which exhibits the
optionality intent) never skips setAdvOptions2; a 4-byte payload only arises
when the caller explicitly passes None. Reading adv-options-2 from a 4-byte
payload does return the defined default 0, and from a 5-byte payload returns
the stored byte. -/
theorem spec_C6_capabilities :
    CapabilitiesMessage.mkDefault = .ok { type_ := 0x54, payload := [0, 0, 0, 0, 0] } ∧
    CapabilitiesMessage.init 0 0 0 0 none = .ok { type_ := 0x54, payload := [0, 0, 0, 0] } ∧
    CapabilitiesMessage.getAdvOptions2 { type_ := 0x54, payload := [0, 0, 0, 0] } = 0 ∧
    CapabilitiesMessage.getAdvOptions2 { type_ := 0x54, payload := [0, 0, 0, 0, 7] } = 7 :=
  ⟨rfl, rfl, rfl, rfl⟩

theorem decode_ok_state (m m1 : Message) (raw : List Nat) (n : Nat)
    (h : Message.decode m raw = (m1, .ok n)) : m1.payload.length ≤ 9 := by
  unfold Message.decode at h
  split at h
  next => simp at h
  next =>
    split at h
    next => simp at h
    next =>
      split at h
      next => simp at h
      next =>
        split at h
        next => simp at h
        next =>
          split at h
          next => simp at h
          next m1x heq =>
            split at h
            next => simp at h
            next m2 heq2 =>
              split at h
              next => simp at h
              next =>
                injection h with h1 h2
                subst h1
                obtain ⟨hp, hty, hl⟩ := setPayload_ok_inv _ _ _ heq2
                rw [hp]
                exact hl

theorem TYPE_TABLE_sound (t : Nat) (c : Except PyError Message)
    (h : TYPE_TABLE t = some c) : ∃ msg, c = .ok msg ∧ msg.type_ = t := by
  have hall : ∀ pr ∈ TYPE_TABLE_ENTRIES, entryOk pr = true := by decide
  rw [TYPE_TABLE] at h
  cases hf : TYPE_TABLE_ENTRIES.find? (fun e => e.1 == t) with
  | none => rw [hf] at h; exact absurd h (by simp)
  | some pr =>
    rw [hf] at h
    have hc : pr.2 = c := by
      simpa using h
    have hkey : pr.1 = t := by
      have := List.find?_some hf
      simpa using this
    have hok := hall pr (List.mem_of_find?_eq_some hf)
    rw [entryOk] at hok
    cases h2 : pr.2 with
    | error e => rw [h2] at hok; simp at hok
    | ok msg =>
      rw [h2] at hok
      simp only [beq_iff_eq] at hok
      exact ⟨msg, by rw [← hc, h2], by rw [hok, hkey]⟩

/-- C7 (confirmed): on any buffer that decode accepts, getHandler (resolve)
fails with the KeyError of the table lookup (distinct from every decode
MessageError) when the decoded type code has no registry entry, and when the
type code is registered it returns the matching variant, carrying the decoded
type code and the decoded payload installed by setPayload. -/
theorem spec_C7_resolve (m m1 : Message) (raw : List Nat) (n : Nat)
    (hdec : Message.decode m raw = (m1, .ok n)) :
    (TYPE_TABLE m1.type_ = none →
      Message.getHandler m raw = (m1, .error (.keyError m1.type_))) ∧
    (∀ c, TYPE_TABLE m1.type_ = some c →
      ∃ msg, Message.getHandler m raw = (m1, .ok msg) ∧
        msg.type_ = m1.type_ ∧ msg.payload = m1.payload) := by
  have hlen : m1.payload.length ≤ 9 := decode_ok_state m m1 raw n hdec
  constructor
  · intro hnone
    unfold Message.getHandler
    rw [hdec]
    dsimp only
    rw [hnone]
  · intro c hc
    obtain ⟨msg0, hok, hty⟩ := TYPE_TABLE_sound _ _ hc
    have hsp : msg0.setPayload m1.payload = .ok { msg0 with payload := m1.payload } := by
      rw [Message.setPayload, if_neg (by omega)]
    refine ⟨{ msg0 with payload := m1.payload }, ?_, ?_, rfl⟩
    · unfold Message.getHandler
      rw [hdec]
      dsimp only
      rw [hc]
      dsimp only
      rw [hok]
      dsimp only
      rw [hsp]
    · show msg0.type_ = m1.type_
      exact hty

/-- C7 witness: a valid frame with the unregistered type code 0x99 resolves
to the distinct KeyError while decode succeeds; the same frame with the
registered channel-open code resolves to the variant with the decoded
payload. -/
theorem spec_C7_witness :
    Message.getHandler { type_ := 0, payload := [] }
      (Message.encode { type_ := 0x99, payload := [3] }) =
      ({ type_ := 0x99, payload := [3] }, .error (.keyError 0x99)) ∧
    Message.getHandler { type_ := 0, payload := [] }
      (Message.encode { type_ := 0x4B, payload := [3] }) =
      ({ type_ := 0x4B, payload := [3] }, .ok { type_ := 0x4B, payload := [3] }) := by
  constructor
  · exact (spec_C7_resolve { type_ := 0, payload := [] } { type_ := 0x99, payload := [3] }
      (Message.encode { type_ := 0x99, payload := [3] }) 5 (by decide)).1 (by decide)
  · obtain ⟨msg, heq, hty, hpl⟩ := (spec_C7_resolve { type_ := 0, payload := [] }
      { type_ := 0x4B, payload := [3] } (Message.encode { type_ := 0x4B, payload := [3] }) 5
      (by decide)).2 ChannelOpenMessage.mkDefault (by decide)
    have hmsg : msg = { type_ := 0x4B, payload := [3] } := by
      cases msg
      simp_all
    rw [hmsg] at heq
    exact heq

/-- C8 counterexample: the claim asserts every single-bit flip outside the
zero-length special case makes decode fail Corrupted, but a flip in the
LENGTH byte need not: flipping bit 0 of the length byte of the valid frame
for type 0, payload [0xA4] yields a buffer that decode accepts outright. -/
theorem spec_C8_counterexample :
    Message.encode { type_ := 0, payload := [0xA4] } = [0xA4, 1, 0, 0xA4, 1] ∧
    flipBitAt [0xA4, 1, 0, 0xA4, 1] 1 0 = [0xA4, 0, 0, 0xA4, 1] ∧
    Message.decode { type_ := 0, payload := [] } (flipBitAt [0xA4, 1, 0, 0xA4, 1] 1 0) =
      ({ type_ := 0, payload := [] }, .ok 4) := ⟨rfl, rfl, rfl⟩

/-- C8 (corrected): for every valid encoded frame with a nonempty payload,
flipping any single bit of the sync byte, the type byte, any payload byte or
the checksum byte makes decode fail with a Corrupted error (the sync check
catches sync flips, the checksum comparison catches the rest); flips of the
LENGTH byte are excluded (they can fail Malformed or Incomplete or even be
accepted, see the counterexample), as are zero-payload frames (their 4-byte
encodings always fail Incomplete). -/
theorem spec_C8_bit_flip (m0 : Message) (t : Nat) (p : List Nat) (i k : Nat)
    (ht : t ≤ 255) (hb : ∀ b ∈ p, b ≤ 255) (h1 : 1 ≤ p.length) (h9 : p.length ≤ 9)
    (hk : k < 8) (hi : i < p.length + 4) (hi1 : i ≠ 1) :
    (Message.decode m0 (flipBitAt (Message.encode { type_ := t, payload := p }) i k)).2 =
        .error Message.syncError ∨
    (Message.decode m0 (flipBitAt (Message.encode { type_ := t, payload := p }) i k)).2 =
        .error Message.checksumError := by
  have hpow : (1 <<< k) ≠ 0 := by
    rw [Nat.one_shiftLeft]
    exact (Nat.pos_pow_of_pos k (by omega)).ne'
  have hpowlt : (1 <<< k) < 256 := by
    rw [Nat.one_shiftLeft]
    calc 2 ^ k < 2 ^ 8 := Nat.pow_lt_pow_right (by omega) hk
    _ = 256 := rfl
  have henc : Message.encode { type_ := t, payload := p } =
      [MESSAGE_TX_SYNC, p.length, t] ++
        (p ++ [Message.getChecksum { type_ := t, payload := p }]) := rfl
  rw [henc]
  set c : Nat := Message.getChecksum { type_ := t, payload := p } with hc
  have hcases : i = 0 ∨ i = 2 ∨ (∃ j, i = 3 + j ∧ j < p.length) ∨ i = p.length + 3 := by
    rcases Nat.lt_or_ge i 3 with h3 | h3
    · interval_cases i
      · exact Or.inl rfl
      · exact absurd rfl hi1
      · exact Or.inr (Or.inl rfl)
    · rcases Nat.lt_or_ge i (p.length + 3) with hlt | hge
      · exact Or.inr (Or.inr (Or.inl ⟨i - 3, by omega, by omega⟩))
      · exact Or.inr (Or.inr (Or.inr (by omega)))
  rcases hcases with rfl | rfl | ⟨j, rfl, hj⟩ | rfl
  · -- sync byte flip: caught by the sync check
    left
    have hflip : flipBitAt ([MESSAGE_TX_SYNC, p.length, t] ++ (p ++ [c])) 0 k =
        [MESSAGE_TX_SYNC ^^^ (1 <<< k), p.length, t] ++ (p ++ [c]) := rfl
    rw [hflip]
    rw [decode_bad_sync m0 _ (by simp; omega)
      (by
        show MESSAGE_TX_SYNC ^^^ (1 <<< k) ≠ MESSAGE_TX_SYNC
        exact xor_ne_self_of_ne_zero _ _ hpow)]
  · -- type byte flip: caught by the checksum comparison
    right
    have hflip : flipBitAt ([MESSAGE_TX_SYNC, p.length, t] ++ (p ++ [c])) 2 k =
        [MESSAGE_TX_SYNC, p.length, t ^^^ (1 <<< k)] ++ (p ++ [c]) := rfl
    rw [hflip]
    have ht2 : t ^^^ (1 <<< k) ≤ 255 := by
      have h28 : (2 : Nat) ^ 8 = 256 := rfl
      have hx : t ^^^ (1 <<< k) < 2 ^ 8 :=
        Nat.xor_lt_two_pow (show t < 2 ^ 8 by omega) (show (1 <<< k) < 2 ^ 8 by omega)
      omega
    rw [decode_frame m0 (t ^^^ (1 <<< k)) p c h1 h9 ht2]
    have hchk : Message.getChecksum ⟨t ^^^ (1 <<< k), p⟩ = c ^^^ (1 <<< k) := by
      rw [hc]
      show p.foldl (· ^^^ ·) ((MESSAGE_TX_SYNC ^^^ p.length) ^^^ (t ^^^ (1 <<< k))) =
        p.foldl (· ^^^ ·) ((MESSAGE_TX_SYNC ^^^ p.length) ^^^ t) ^^^ (1 <<< k)
      rw [← Nat.xor_assoc]
      exact foldl_xor_init p _ _
    rw [if_pos (by rw [hchk]; exact xor_ne_self_of_ne_zero _ _ hpow)]
  · -- payload byte flip: caught by the checksum comparison
    right
    have hget : ([MESSAGE_TX_SYNC, p.length, t] ++ (p ++ [c])).getD (3 + j) 0 = p.getD j 0 := by
      rw [List.getD_append_right _ _ _ _
        (by simp only [List.length_cons, List.length_nil]; omega)]
      have h3j : 3 + j - [MESSAGE_TX_SYNC, p.length, t].length = j := by simp
      rw [h3j, List.getD_append _ _ _ _ hj]
    have hflip : flipBitAt ([MESSAGE_TX_SYNC, p.length, t] ++ (p ++ [c])) (3 + j) k =
        [MESSAGE_TX_SYNC, p.length, t] ++
          ((p.set j (p.getD j 0 ^^^ (1 <<< k))) ++ [c]) := by
      rw [flipBitAt, hget, List.set_append, if_neg (by simp)]
      have h3j : 3 + j - [MESSAGE_TX_SYNC, p.length, t].length = j := by simp
      rw [h3j, List.set_append, if_pos hj]
      rfl
    rw [hflip]
    have hql : (p.set j (p.getD j 0 ^^^ (1 <<< k))).length = p.length := List.length_set p _ _
    rw [← hql, decode_frame m0 t _ c (by omega) (by omega) ht]
    have hchk : Message.getChecksum ⟨t, p.set j (p.getD j 0 ^^^ (1 <<< k))⟩ = c ^^^ (1 <<< k) := by
      rw [hc]
      show (p.set j (p.getD j 0 ^^^ (1 <<< k))).foldl (· ^^^ ·)
          ((MESSAGE_TX_SYNC ^^^ (p.set j (p.getD j 0 ^^^ (1 <<< k))).length) ^^^ t) =
        p.foldl (· ^^^ ·) ((MESSAGE_TX_SYNC ^^^ p.length) ^^^ t) ^^^ (1 <<< k)
      rw [hql, foldl_xor_set p j hj _ _]
      rw [← Nat.xor_assoc (p.getD j 0) (p.getD j 0) (1 <<< k), Nat.xor_self, Nat.zero_xor]
    rw [if_pos (by rw [hchk]; exact xor_ne_self_of_ne_zero _ _ hpow)]
  · -- checksum byte flip: the stored checksum changes, the recomputed one
    -- does not
    right
    have hget : ([MESSAGE_TX_SYNC, p.length, t] ++ (p ++ [c])).getD (p.length + 3) 0 = c := by
      rw [List.getD_append_right _ _ _ _ (by simp)]
      have h3j : p.length + 3 - [MESSAGE_TX_SYNC, p.length, t].length = p.length := by simp
      rw [h3j, List.getD_append_right _ _ _ _ (le_refl _)]
      simp
    have hflip : flipBitAt ([MESSAGE_TX_SYNC, p.length, t] ++ (p ++ [c])) (p.length + 3) k =
        [MESSAGE_TX_SYNC, p.length, t] ++ (p ++ [c ^^^ (1 <<< k)]) := by
      rw [flipBitAt, hget, List.set_append, if_neg (by simp)]
      have h3j : p.length + 3 - [MESSAGE_TX_SYNC, p.length, t].length = p.length := by simp
      rw [h3j, List.set_append, if_neg (by omega)]
      have hjj : p.length - p.length = 0 := by omega
      rw [hjj]
      rfl
    rw [hflip]
    rw [decode_frame m0 t p _ h1 h9 ht]
    rw [if_pos (Ne.symm (xor_ne_self_of_ne_zero _ _ hpow))]

/-- C8 witness: flipping bit 0 of the checksum byte of the valid frame for
type 0, payload [0xA4] makes decode fail with one of the two Corrupted
errors. -/
theorem spec_C8_witness :
    (Message.decode { type_ := 0, payload := [] }
      (flipBitAt (Message.encode { type_ := 0, payload := [0xA4] }) 4 0)).2 =
        .error Message.syncError ∨
    (Message.decode { type_ := 0, payload := [] }
      (flipBitAt (Message.encode { type_ := 0, payload := [0xA4] }) 4 0)).2 =
        .error Message.checksumError :=
  spec_C8_bit_flip { type_ := 0, payload := [] } 0 [0xA4] 4 0 (by decide) (by decide)
    (by decide) (by decide) (by decide) (by decide) (by decide)

end PythonAnt
